import Mathlib

/-!
Verification development for the service health-aggregation and log-tail
subsystem of the `ai-command-center` desktop backend (`src-tauri/src/main.rs`).

The Rust commands are shallowly embedded as pure Lean functions.  Effects of
the outside world (HTTP responses, CLI process output, file contents, the
resolved config directory) are passed in as explicit values, so each embedded
function is the source function's arrow from observed environment to returned
value.  Byte strings read from log files are modelled as `List Nat` (one Nat
per byte); UTF-8 decoding failures of individual log lines are outside the
model (log content is treated as decodable, e.g. ASCII).
-/

namespace AICC

/-- Mirror of the Rust struct `HealthStatus` in `main.rs`. -/
structure HealthStatus where
  service : String
  healthy : Bool
  message : String
  latency_ms : Option Nat
deriving Repr, DecidableEq

/-- Mirror of the Rust struct `AllHealthResponse` in `main.rs`: a fixed-shape
record with one slot per backend. -/
structure AllHealthResponse where
  router : HealthStatus
  litellm : HealthStatus
  ollama : HealthStatus
  redis : HealthStatus
  langfuse : HealthStatus
deriving Repr, DecidableEq

/-- Environment outcome of one HTTP probe in `check_http_health`: the client
builder failed, a response arrived (with its status code and the elapsed
wall-clock milliseconds measured by the probe), or the transport failed
(DNS, connection refused, timeout). -/
inductive HttpOutcome where
  | buildFail (err : String)
  | response (status : Nat) (elapsedMs : Nat)
  | transportFail (err : String)
deriving Repr, DecidableEq

/-- Embedding of `check_http_health` from `main.rs`: the returned
`HealthStatus` as a function of the observed HTTP outcome.  `is_success`
on a Rust `StatusCode` means `200 <= code < 300`; the non-2xx message
`format!("Status: \x7b\x7d", resp.status())` is modelled with the numeric
code standing in for the status code's display form. -/
def check_http_health (url service : String) (o : HttpOutcome) : HealthStatus :=
  match o with
  | .buildFail e =>
      { service := service, healthy := false,
        message := "Failed to create HTTP client: " ++ e, latency_ms := none }
  | .response status elapsedMs =>
      if 200 ≤ status ∧ status < 300 then
        { service := service, healthy := true, message := "OK",
          latency_ms := some elapsedMs }
      else
        { service := service, healthy := false,
          message := "Status: " ++ toString status, latency_ms := some elapsedMs }
  | .transportFail e =>
      { service := service, healthy := false,
        message := "Connection failed: " ++ e, latency_ms := none }

/-- Environment outcome of the `redis-cli ping` invocation in
`check_redis_health`: the command spawned and produced this stdout (already
decoded, as by `String::from_utf8_lossy`), or spawning failed. -/
inductive CliOutcome where
  | spawned (stdout : String)
  | spawnFail (err : String)
deriving Repr, DecidableEq

/-- Embedding of Rust `str::trim`: drop whitespace characters from
both ends of the string. -/
def rustTrim (s : String) : String :=
  String.mk (((s.data.dropWhile Char.isWhitespace).reverse.dropWhile
    Char.isWhitespace).reverse)

/-- Embedding of `check_redis_health` from `main.rs`. -/
def check_redis_health (o : CliOutcome) : HealthStatus :=
  match o with
  | .spawned out =>
      if rustTrim out = "PONG" then
        { service := "Redis", healthy := true, message := "PONG", latency_ms := none }
      else
        { service := "Redis", healthy := false,
          message := "Unexpected response: " ++ rustTrim out, latency_ms := none }
  | .spawnFail e =>
      { service := "Redis", healthy := false, message := "Error: " ++ e,
        latency_ms := none }

/-- Embedding of `check_router_health`. -/
def check_router_health (o : HttpOutcome) : HealthStatus :=
  check_http_health "http://localhost:4000/health" "Smart Router" o

/-- Embedding of `check_litellm_health`. -/
def check_litellm_health (o : HttpOutcome) : HealthStatus :=
  check_http_health "http://localhost:4001/health" "LiteLLM" o

/-- Embedding of `check_ollama_health`. -/
def check_ollama_health (o : HttpOutcome) : HealthStatus :=
  check_http_health "http://localhost:11434/api/tags" "Ollama" o

/-- Embedding of `check_langfuse_health`. -/
def check_langfuse_health (o : HttpOutcome) : HealthStatus :=
  check_http_health "http://localhost:3001/api/public/health" "Langfuse" o

/-- One environment outcome per probe of the aggregate call (`tokio::join!`
waits for all five, so all five outcomes are observed). -/
structure ProbeOutcomes where
  router : HttpOutcome
  litellm : HttpOutcome
  ollama : HttpOutcome
  redis : CliOutcome
  langfuse : HttpOutcome
deriving Repr, DecidableEq

/-- Embedding of `get_all_health` from `main.rs`: joins the five probes and
assembles the fixed-shape response. -/
def get_all_health (o : ProbeOutcomes) : AllHealthResponse :=
  { router := check_router_health o.router,
    litellm := check_litellm_health o.litellm,
    ollama := check_ollama_health o.ollama,
    redis := check_redis_health o.redis,
    langfuse := check_langfuse_health o.langfuse }

/-- An HTTP probe outcome counts as failed when the client could not be
built, the transport failed, or the response status was outside 200-299. -/
def HttpOutcome.failed : HttpOutcome → Bool
  | .buildFail _ => true
  | .response status _ => !(decide (200 ≤ status ∧ status < 300))
  | .transportFail _ => true

/-- A CLI probe outcome counts as failed when spawning failed or the trimmed
stdout was not the expected literal. -/
def CliOutcome.failed : CliOutcome → Bool
  | .spawned out => !(rustTrim out == "PONG")
  | .spawnFail _ => true

/-- Whether `needle` occurs at the head of `hay` (character lists). -/
def leadsWith : List Char → List Char → Bool
  | [], _ => true
  | _ :: _, [] => false
  | a :: as, b :: bs => a == b && leadsWith as bs

/-- Whether `needle` occurs contiguously anywhere inside `hay`
(case-sensitive, as Rust `str::contains` on a literal). -/
def containsText (hay needle : String) : Bool :=
  (List.range (hay.data.length + 1)).any (fun i => leadsWith needle.data (hay.data.drop i))

/-- Mirror of the Rust struct `LiteLLMParams`. -/
structure LiteLLMParams where
  model : String
  api_base : String
deriving Repr, DecidableEq

/-- Mirror of the Rust struct `ModelConfig`. -/
structure ModelConfig where
  model_name : String
  litellm_params : LiteLLMParams
deriving Repr, DecidableEq

/-- Structured YAML-compatible values, standing for `serde_yaml::Value`
(mapping keys restricted to strings, which covers the documents here). -/
inductive Yaml where
  | null
  | bool (b : Bool)
  | num (n : Int)
  | str (s : String)
  | seq (xs : List Yaml)
  | map (kvs : List (String × Yaml))
deriving Repr

/-- Mirror of the Rust struct `Config`: the typed `model_list` plus three
opaque `serde_yaml::Value` settings sections. -/
structure Config where
  model_list : List ModelConfig
  litellm_settings : Yaml
  router_settings : Yaml
  general_settings : Yaml
deriving Repr

/-- Mirror of the Rust struct `ValidationResult`. -/
structure ValidationResult where
  valid : Bool
  errors : List String
  warnings : List String
deriving Repr, DecidableEq

/-- A single-quote character as a string (ASCII 39). -/
def squote : String := String.singleton (Char.ofNat 39)

/-- The literal warning pushed by `validate_config` when no model is named
`llama-fast`. -/
def recommendedWarning : String :=
  "Recommended: Add " ++ squote ++ "llama-fast" ++ squote ++ " model for quick responses"

/-- Body of the per-model loop of `validate_config`: the two conditional
`errors.push` calls for one model. -/
def validateStep (errs : List String) (model : ModelConfig) : List String :=
  let errs := if model.model_name.isEmpty then
      errs ++ ["Model name cannot be empty"] else errs
  if !(model.litellm_params.api_base.startsWith "http") then
    errs ++ ["Invalid api_base for " ++ model.model_name ++ ": must start with http(s)"]
  else errs

/-- Embedding of `validate_config` from `main.rs`: the same sequence of
`Vec::push` calls, with the per-model loop rendered as a fold of
`validateStep` over `model_list`. -/
def validate_config (config : Config) : ValidationResult :=
  let errors : List String := []
  let errors := if config.model_list.isEmpty then
      errors ++ ["At least one model must be configured"] else errors
  let errors := config.model_list.foldl validateStep errors
  let model_names := config.model_list.map (fun m => m.model_name)
  let warnings : List String :=
    if !(model_names.contains "llama-fast") then [recommendedWarning] else []
  { valid := errors.isEmpty, errors := errors, warnings := warnings }

/-- Spec-side description (for the ordering claim): the error findings that
the spec attributes to one model entry, in the order the rules are stated. -/
def specModelFindings (m : ModelConfig) : List String :=
  (if m.model_name.isEmpty then ["Model name cannot be empty"] else []) ++
  (if !(m.litellm_params.api_base.startsWith "http") then
      ["Invalid api_base for " ++ m.model_name ++ ": must start with http(s)"]
    else [])

/-- Serde serialization of one `ModelConfig` as a YAML value, field order as
declared in the Rust struct. -/
def modelConfigToYaml (m : ModelConfig) : Yaml :=
  .map [("model_name", .str m.model_name),
        ("litellm_params",
          .map [("model", .str m.litellm_params.model),
                ("api_base", .str m.litellm_params.api_base)])]

/-- Serde serialization of `Config` as a YAML value, field order as declared
in the Rust struct; the three opaque settings values are emitted verbatim. -/
def configToYaml (c : Config) : Yaml :=
  .map [("model_list", .seq (c.model_list.map modelConfigToYaml)),
        ("litellm_settings", c.litellm_settings),
        ("router_settings", c.router_settings),
        ("general_settings", c.general_settings)]

/-- First binding of a key in a YAML mapping. -/
def lookupKey : List (String × Yaml) → String → Option Yaml
  | [], _ => none
  | (k, v) :: rest, key => if k = key then some v else lookupKey rest key

/-- Serde deserialization of `LiteLLMParams` from a YAML value: both string
fields are required; unknown keys are ignored (serde's default). -/
def yamlToParams : Yaml → Except String LiteLLMParams
  | .map kvs =>
    match lookupKey kvs "model", lookupKey kvs "api_base" with
    | some (.str m), some (.str a) => .ok { model := m, api_base := a }
    | _, _ => .error "Failed to parse config: invalid litellm_params"
  | _ => .error "Failed to parse config: litellm_params must be a mapping"

/-- Serde deserialization of `ModelConfig` from a YAML value. -/
def yamlToModelConfig : Yaml → Except String ModelConfig
  | .map kvs =>
    match lookupKey kvs "model_name", lookupKey kvs "litellm_params" with
    | some (.str n), some p =>
        (yamlToParams p).map (fun ps => { model_name := n, litellm_params := ps })
    | _, _ => .error "Failed to parse config: invalid model entry"
  | _ => .error "Failed to parse config: model entry must be a mapping"

/-- Serde deserialization of a `model_list` sequence, first failure aborts. -/
def yamlListToModels : List Yaml → Except String (List ModelConfig)
  | [] => .ok []
  | y :: ys => do
      let m ← yamlToModelConfig y
      let ms ← yamlListToModels ys
      .ok (m :: ms)

/-- Embedding of `read_config` from `main.rs`, at the YAML-value level (the
text layer `serde_yaml::from_str` is taken as the identity between a document
and its value tree): `model_list` is required, the three settings sections
default to null when absent (their serde default), and unknown keys are
ignored (serde's default for a derived struct). -/
def read_config : Yaml → Except String Config
  | .map kvs =>
    match lookupKey kvs "model_list" with
    | some (.seq ys) =>
        (yamlListToModels ys).map (fun ms =>
          { model_list := ms,
            litellm_settings := (lookupKey kvs "litellm_settings").getD .null,
            router_settings := (lookupKey kvs "router_settings").getD .null,
            general_settings := (lookupKey kvs "general_settings").getD .null })
    | _ => .error "Failed to parse config: missing or invalid model_list"
  | _ => .error "Failed to parse config: document must be a mapping"

/-- Embedding of `write_config` from `main.rs`, at the YAML-value level: the
document persisted is the serde serialization of the given config. -/
def write_config (c : Config) : Yaml := configToYaml c

/-- Byte-list splitting at newline bytes (10), keeping empty segments; the
shape that results from repeated `BufRead::read_line` calls. -/
def splitNL : List Nat → List (List Nat)
  | [] => [[]]
  | b :: rest =>
    if b = 10 then [] :: splitNL rest
    else
      match splitNL rest with
      | [] => [[b]]
      | l :: ls => (b :: l) :: ls

/-- Drop one trailing carriage-return byte (13), as `lines()` does on a
segment that was newline-terminated. -/
def stripCR (l : List Nat) : List Nat :=
  if l.getLast? = some 13 then l.dropLast else l

/-- Embedding of Rust `BufReader::lines()` on a byte list: split at newlines;
every newline-terminated segment has a trailing carriage return stripped; a
final empty segment (input ended with a newline, or was empty) yields no
line; a final non-empty segment is returned untouched. -/
def rustLines (c : List Nat) : List (List Nat) :=
  (splitNL c).dropLast.map stripCR ++
    (if (splitNL c).getLastD [] = [] then [] else [(splitNL c).getLastD []])

/-- The last `n` elements of a list (Rust `v[v.len().saturating_sub(n)..]`). -/
def lastN (n : Nat) (l : List α) : List α := l.drop (l.length - n)

/-- The bytes read by the tail path of `read_log_tail`: the file from the
seek position `file_size - 65536` (Rust `saturating_sub`) to the end. -/
def tailWindow (content : List Nat) : List Nat :=
  content.drop (content.length - 65536)

/-- The line vector of the tail path after the fix-up of `read_log_tail`:
the lines of the 64 KiB window, with the first (presumed partial) line
removed when the seek position is positive and a line exists
(`all_lines.remove(0)`). -/
def tailWindowLines (content : List Nat) : List (List Nat) :=
  if content.length - 65536 > 0 ∧ rustLines (tailWindow content) ≠ [] then
    (rustLines (tailWindow content)).drop 1
  else rustLines (tailWindow content)

/-- Embedding of the body of `read_log_tail` from `main.rs` on the bytes of
an existing log file: whole-file read below 64 KiB, otherwise seek to
`file_size - 65536`, read lines, drop the first (presumed partial) line when
the seek position is positive and a line exists, and keep the last `lines`
lines. -/
def read_log_tail_content (content : List Nat) (lines : Nat) : List (List Nat) :=
  if content.length < 65536 then
    lastN lines (rustLines content)
  else
    lastN lines (tailWindowLines content)

/-- The log filename for a service, as matched in `read_log_tail`. -/
def logFilename (service : String) : Option String :=
  if service = "router" then some "router.out.log"
  else if service = "litellm" then some "litellm.out.log"
  else none

/-- Bytes of a string (the strings involved are ASCII). -/
def strBytes (s : String) : List Nat := s.data.map Char.toNat

/-- Embedding of the Tauri command `read_log_tail` from `main.rs`.  The
resolved config directory is passed in (its resolution from the home
directory is environment plumbing), and the file system is passed in as
`none` (file absent) or `some content` (the bytes read).  An unknown service
is a hard error; an absent file is a soft single informational line; an
existing file is tailed by `read_log_tail_content`. -/
def read_log_tail (configDir service : String) (lines : Nat)
    (file : Option (List Nat)) : Except String (List (List Nat)) :=
  match logFilename service with
  | none => .error ("Unknown service: " ++ service)
  | some filename =>
    match file with
    | none =>
        .ok [strBytes ("Log file not found: \"" ++ configDir ++ "/logs/" ++
          filename ++ "\"")]
    | some content => .ok (read_log_tail_content content lines)

/-- Reference whole-file tail: the last `n` lines of a full read. -/
def referenceTail (content : List Nat) (lines : Nat) : List (List Nat) :=
  lastN lines (rustLines content)

/-- A 64 KiB window holding exactly ten complete lines: nine lines `a`
followed by one long final line, 65536 bytes in total. -/
def cexWindow : List Nat :=
  [97, 10, 97, 10, 97, 10, 97, 10, 97, 10, 97, 10, 97, 10, 97, 10, 97, 10] ++
    List.replicate 65518 97

/-- A 200 KiB log file (204800 bytes): one long newline-terminated first
line, then `cexWindow`.  Its last 64 KiB window starts exactly at a line
start, so the tail path discards a complete line as a presumed fragment. -/
def cexContent : List Nat := (List.replicate 139263 97 ++ [10]) ++ cexWindow

/-- A stored config document carrying a top-level key outside the known
schema. -/
def cexDoc : Yaml :=
  .map [("model_list", .seq []), ("custom_section", .str "keep-me")]

/-- The empty-model-list config used as a concrete validation input. -/
def emptyConfig : Config :=
  { model_list := [], litellm_settings := .null, router_settings := .null,
    general_settings := .null }

/-- A configuration of probe outcomes in which all five probes fail. -/
def allFailOutcomes : ProbeOutcomes :=
  { router := .transportFail "connection refused",
    litellm := .response 503 12,
    ollama := .buildFail "bad client configuration",
    redis := .spawned "ERR unknown command",
    langfuse := .transportFail "timed out" }

/-- A well-formed model entry whose name is not the recommended default. -/
def qwenModel : ModelConfig :=
  { model_name := "qwen-local",
    litellm_params := { model := "ollama/qwen2.5", api_base := "http://localhost:11434" } }

/-- A well-formed model entry named as the recommended default. -/
def llamaFastModel : ModelConfig :=
  { model_name := "llama-fast",
    litellm_params := { model := "ollama/llama3.2", api_base := "http://localhost:11434" } }

/-- A well-formed single-model config whose model is not the recommended
default. -/
def oneModelConfig : Config :=
  { model_list := [qwenModel], litellm_settings := .null,
    router_settings := .null, general_settings := .null }

/-- A well-formed single-model config whose model is the recommended
default. -/
def llamaFastConfig : Config :=
  { model_list := [llamaFastModel], litellm_settings := .null,
    router_settings := .null, general_settings := .null }

/-! ## Helper lemmas -/

theorem http_failed_unhealthy (url service : String) (o : HttpOutcome)
    (h : o.failed = true) : (check_http_health url service o).healthy = false := by
  cases o with
  | buildFail e => rfl
  | response status elapsedMs =>
    have hs : ¬ (200 ≤ status ∧ status < 300) := by
      intro hc
      simp [HttpOutcome.failed, hc.1, hc.2] at h
    simp [check_http_health, hs]
  | transportFail e => rfl

theorem cli_failed_unhealthy (o : CliOutcome) (h : o.failed = true) :
    (check_redis_health o).healthy = false := by
  cases o with
  | spawned out =>
    have hs : ¬ (rustTrim out = "PONG") := by
      simpa [CliOutcome.failed] using h
    simp [check_redis_health, hs]
  | spawnFail e => rfl

theorem leadsWith_refl (l : List Char) : leadsWith l l = true := by
  induction l with
  | nil => rfl
  | cons a as ih => simp [leadsWith, ih]

theorem containsText_append_right (p e : String) :
    containsText (p ++ e) e = true := by
  unfold containsText
  rw [List.any_eq_true]
  refine ⟨p.data.length, ?_, ?_⟩
  · rw [List.mem_range, String.data_append, List.length_append]
    omega
  · rw [String.data_append, List.drop_left]
    exact leadsWith_refl e.data

/-! ## Claims about the probes and the aggregator -/

/-- Claim C1: for every outcome of the five probes (including all five
failing), `get_all_health` returns an `AllHealthResponse` whose five slots
each hold exactly the corresponding probe's `HealthStatus` (so no slot is
ever absent), a failed probe's slot holds a `healthy = false` status, and
one probe's outcome never changes another probe's slot. -/
theorem C1_aggregate_isolated_slots (o : ProbeOutcomes) :
    ((get_all_health o).router = check_router_health o.router ∧
     (get_all_health o).litellm = check_litellm_health o.litellm ∧
     (get_all_health o).ollama = check_ollama_health o.ollama ∧
     (get_all_health o).redis = check_redis_health o.redis ∧
     (get_all_health o).langfuse = check_langfuse_health o.langfuse) ∧
    (o.router.failed = true → (get_all_health o).router.healthy = false) ∧
    (o.litellm.failed = true → (get_all_health o).litellm.healthy = false) ∧
    (o.ollama.failed = true → (get_all_health o).ollama.healthy = false) ∧
    (o.redis.failed = true → (get_all_health o).redis.healthy = false) ∧
    (o.langfuse.failed = true → (get_all_health o).langfuse.healthy = false) ∧
    (∀ o' : ProbeOutcomes,
      (o'.router = o.router →
        (get_all_health o').router = (get_all_health o).router) ∧
      (o'.litellm = o.litellm →
        (get_all_health o').litellm = (get_all_health o).litellm) ∧
      (o'.ollama = o.ollama →
        (get_all_health o').ollama = (get_all_health o).ollama) ∧
      (o'.redis = o.redis →
        (get_all_health o').redis = (get_all_health o).redis) ∧
      (o'.langfuse = o.langfuse →
        (get_all_health o').langfuse = (get_all_health o).langfuse)) := by
  refine ⟨⟨rfl, rfl, rfl, rfl, rfl⟩, ?_, ?_, ?_, ?_, ?_, ?_⟩
  · exact fun h =>
      http_failed_unhealthy "http://localhost:4000/health" "Smart Router" o.router h
  · exact fun h =>
      http_failed_unhealthy "http://localhost:4001/health" "LiteLLM" o.litellm h
  · exact fun h =>
      http_failed_unhealthy "http://localhost:11434/api/tags" "Ollama" o.ollama h
  · exact fun h => cli_failed_unhealthy o.redis h
  · exact fun h =>
      http_failed_unhealthy "http://localhost:3001/api/public/health" "Langfuse" o.langfuse h
  · intro o'
    exact ⟨fun h => congrArg check_router_health h,
      fun h => congrArg check_litellm_health h,
      fun h => congrArg check_ollama_health h,
      fun h => congrArg check_redis_health h,
      fun h => congrArg check_langfuse_health h⟩

/-- Claim C1 witness: all five probes fail, and every slot is a present,
unhealthy status. -/
theorem C1_aggregate_isolated_slots_witness :
    (get_all_health allFailOutcomes).router.healthy = false ∧
    (get_all_health allFailOutcomes).litellm.healthy = false ∧
    (get_all_health allFailOutcomes).ollama.healthy = false ∧
    (get_all_health allFailOutcomes).redis.healthy = false ∧
    (get_all_health allFailOutcomes).langfuse.healthy = false :=
  ⟨(C1_aggregate_isolated_slots allFailOutcomes).2.1 (by decide),
   (C1_aggregate_isolated_slots allFailOutcomes).2.2.1 (by decide),
   (C1_aggregate_isolated_slots allFailOutcomes).2.2.2.1 (by decide),
   (C1_aggregate_isolated_slots allFailOutcomes).2.2.2.2.1 (by decide),
   (C1_aggregate_isolated_slots allFailOutcomes).2.2.2.2.2.1 (by decide)⟩

/-- Claim C3: an HTTP probe maps a 2xx response to `healthy = true` with
the elapsed milliseconds, a reachable non-2xx response to `healthy = false`
with the elapsed milliseconds, a transport failure to `healthy = false`,
`latency_ms = none` and a message carrying the underlying error text, and a
client-build failure to a `healthy = false` status (no fatal error). -/
theorem C3_http_probe_cases (url service : String) :
    (∀ status elapsedMs : Nat, 200 ≤ status → status < 300 →
      check_http_health url service (.response status elapsedMs) =
        { service := service, healthy := true, message := "OK",
          latency_ms := some elapsedMs }) ∧
    (∀ status elapsedMs : Nat, ¬ (200 ≤ status ∧ status < 300) →
      check_http_health url service (.response status elapsedMs) =
        { service := service, healthy := false,
          message := "Status: " ++ toString status,
          latency_ms := some elapsedMs }) ∧
    (∀ e, check_http_health url service (.transportFail e) =
        { service := service, healthy := false,
          message := "Connection failed: " ++ e, latency_ms := none } ∧
      containsText (check_http_health url service (.transportFail e)).message e
        = true) ∧
    (∀ e, check_http_health url service (.buildFail e) =
        { service := service, healthy := false,
          message := "Failed to create HTTP client: " ++ e,
          latency_ms := none }) := by
  refine ⟨?_, ?_, ?_, ?_⟩
  · intro status elapsedMs h1 h2
    simp [check_http_health, h1, h2]
  · intro status elapsedMs h
    simp [check_http_health, h]
  · intro e
    exact ⟨rfl, containsText_append_right "Connection failed: " e⟩
  · intro e
    rfl

/-- Claim C3 witness: concrete 2xx and non-2xx responses. -/
theorem C3_http_probe_cases_witness :
    check_http_health "http://localhost:4000/health" "Smart Router"
        (.response 200 7) =
      { service := "Smart Router", healthy := true, message := "OK",
        latency_ms := some 7 } ∧
    check_http_health "http://localhost:4000/health" "Smart Router"
        (.response 404 9) =
      { service := "Smart Router", healthy := false,
        message := "Status: " ++ toString 404, latency_ms := some 9 } :=
  ⟨(C3_http_probe_cases "http://localhost:4000/health" "Smart Router").1
      200 7 (by decide) (by decide),
   (C3_http_probe_cases "http://localhost:4000/health" "Smart Router").2.1
      404 9 (by decide)⟩

/-- Claim C9: the CLI cache probe is healthy exactly when the command
spawned and its trimmed stdout equals the literal expected reply; spawn
failure and unexpected output are unhealthy with distinct messages; latency
is never recorded. -/
theorem C9_redis_probe :
    (∀ o : CliOutcome, ((check_redis_health o).healthy = true ↔
        ∃ s, o = .spawned s ∧ rustTrim s = "PONG")) ∧
    (∀ o : CliOutcome, (check_redis_health o).latency_ms = none) ∧
    (∀ s, rustTrim s = "PONG" →
      check_redis_health (.spawned s) =
        { service := "Redis", healthy := true, message := "PONG",
          latency_ms := none }) ∧
    (∀ s, ¬ rustTrim s = "PONG" →
      check_redis_health (.spawned s) =
        { service := "Redis", healthy := false,
          message := "Unexpected response: " ++ rustTrim s, latency_ms := none }) ∧
    (∀ e, check_redis_health (.spawnFail e) =
        { service := "Redis", healthy := false, message := "Error: " ++ e,
          latency_ms := none }) ∧
    (∀ e s, (check_redis_health (.spawnFail e)).message ≠
        (check_redis_health (.spawned s)).message) := by
  refine ⟨?_, ?_, ?_, ?_, ?_, ?_⟩
  · intro o
    cases o with
    | spawned s =>
      by_cases h : rustTrim s = "PONG" <;> simp [check_redis_health, h]
    | spawnFail e =>
      simp [check_redis_health]
  · intro o
    cases o with
    | spawned s =>
      by_cases h : rustTrim s = "PONG" <;> simp [check_redis_health, h]
    | spawnFail e => rfl
  · intro s h
    simp [check_redis_health, h]
  · intro s h
    simp [check_redis_health, h]
  · intro e
    rfl
  · intro e s
    by_cases h : rustTrim s = "PONG"
    · simp only [check_redis_health, if_pos h]
      intro he
      have h2 : some 'E' = some 'P' :=
        congrArg (fun t : String => t.data.head?) he
      simp at h2
    · simp only [check_redis_health, if_neg h]
      intro he
      have h2 : some 'E' = some 'U' :=
        congrArg (fun t : String => t.data.head?) he
      simp at h2

/-- Claim C9 witness: a PONG reply, an unexpected reply and a spawn failure
at concrete inputs. -/
theorem C9_redis_probe_witness :
    check_redis_health (.spawned "PONG") =
      { service := "Redis", healthy := true, message := "PONG",
        latency_ms := none } ∧
    check_redis_health (.spawned "ERR unknown command") =
      { service := "Redis", healthy := false,
        message := "Unexpected response: " ++ rustTrim "ERR unknown command",
        latency_ms := none } :=
  ⟨C9_redis_probe.2.2.1 "PONG" (by decide),
   C9_redis_probe.2.2.2.1 "ERR unknown command" (by decide)⟩

/-! ## Claims about the log-tail command -/

/-- Claim C4: when the named log file of a known service does not exist,
`read_log_tail` succeeds with exactly one informational line stating the
file was not found, for every value of `maxLines`. -/
theorem C4_missing_log_single_line (configDir : String) (lines : Nat) :
    read_log_tail configDir "router" lines none =
      .ok [strBytes ("Log file not found: \"" ++ configDir ++ "/logs/" ++
        "router.out.log" ++ "\"")] ∧
    read_log_tail configDir "litellm" lines none =
      .ok [strBytes ("Log file not found: \"" ++ configDir ++ "/logs/" ++
        "litellm.out.log" ++ "\"")] := by
  constructor <;> rfl

/-- Claim C10: for every service other than the two log-bearing ones,
`read_log_tail` is a hard error naming the unknown service, regardless of
`maxLines` and of the state of the file system. -/
theorem C10_unknown_service_hard_error (configDir service : String)
    (lines : Nat) (file : Option (List Nat))
    (h1 : service ≠ "router") (h2 : service ≠ "litellm") :
    read_log_tail configDir service lines file =
      .error ("Unknown service: " ++ service) := by
  have hf : logFilename service = none := by
    rw [logFilename, if_neg h1, if_neg h2]
  simp [read_log_tail, hf]

/-- Claim C10 witness: the service `ollama` is rejected identically whether
or not a file is present. -/
theorem C10_unknown_service_hard_error_witness :
    read_log_tail "/tmp/cfg" "ollama" 7 (some [97, 10, 98]) =
      .error ("Unknown service: " ++ "ollama") ∧
    read_log_tail "/tmp/cfg" "ollama" 7 none =
      .error ("Unknown service: " ++ "ollama") :=
  ⟨C10_unknown_service_hard_error "/tmp/cfg" "ollama" 7 (some [97, 10, 98])
      (by decide) (by decide),
   C10_unknown_service_hard_error "/tmp/cfg" "ollama" 7 none
      (by decide) (by decide)⟩

/-! ## Claims about the validator -/

theorem validateStep_eq (errs : List String) (m : ModelConfig) :
    validateStep errs m = errs ++ specModelFindings m := by
  unfold validateStep specModelFindings
  by_cases h1 : m.model_name.isEmpty <;>
    by_cases h2 : (!(m.litellm_params.api_base.startsWith "http")) = true <;>
      simp [h1, h2]

theorem foldl_validateStep (l : List ModelConfig) (init : List String) :
    l.foldl validateStep init = init ++ l.flatMap specModelFindings := by
  induction l generalizing init with
  | nil => simp
  | cons m ms ih =>
    simp [List.foldl_cons, validateStep_eq, ih, List.flatMap_cons]

theorem validate_config_errors (config : Config) :
    (validate_config config).errors =
      (if config.model_list.isEmpty then ["At least one model must be configured"]
        else []) ++ config.model_list.flatMap specModelFindings := by
  show config.model_list.foldl validateStep _ = _
  rw [foldl_validateStep]
  by_cases h : config.model_list.isEmpty <;> simp [h]

theorem validate_config_warnings (config : Config) :
    (validate_config config).warnings =
      (if (config.model_list.map (fun m => m.model_name)).contains "llama-fast"
        then [] else [recommendedWarning]) := by
  show (if !((config.model_list.map (fun m => m.model_name)).contains "llama-fast")
      then [recommendedWarning] else []) = _
  cases h : (config.model_list.map (fun m => m.model_name)).contains "llama-fast" <;>
    rfl

theorem contains_llama_iff (config : Config) :
    ((config.model_list.map (fun m => m.model_name)).contains "llama-fast" = true)
      ↔ ∃ m ∈ config.model_list, m.model_name = "llama-fast" := by
  simp only [List.contains_iff_exists_mem_beq, List.mem_map, beq_iff_eq]
  constructor
  · rintro ⟨x, ⟨m, hm, rfl⟩, hx⟩
    exact ⟨m, hm, hx.symm⟩
  · rintro ⟨m, hm, hn⟩
    exact ⟨m.model_name, ⟨m, hm, rfl⟩, hn.symm⟩

/-- Claim C6 counterexample: on the empty-model-list config the single
error is `At least one model must be configured`, which does not contain
the claimed text `at least one model` (the code's message is capitalised),
so no error contains that text. -/
theorem C6_counterexample :
    (validate_config emptyConfig).valid = false ∧
    (validate_config emptyConfig).errors =
      ["At least one model must be configured"] ∧
    (validate_config emptyConfig).errors.all
      (fun e => !(containsText e "at least one model")) = true := by
  refine ⟨rfl, rfl, ?_⟩
  decide

/-- Claim C6 as amended: for every config whose `model_list` is empty,
`validate_config` returns `valid = false` and some error contains the text
`At least one model` (capitalised as in the code). -/
theorem C6_empty_model_list (config : Config) (h : config.model_list = []) :
    (validate_config config).valid = false ∧
    ∃ e ∈ (validate_config config).errors,
      containsText e "At least one model" = true := by
  obtain ⟨ml, ls, rs, gs⟩ := config
  subst h
  refine ⟨rfl, "At least one model must be configured", ?_, by decide⟩
  exact List.mem_singleton_self _

/-- Claim C6 witness: the amended claim at the concrete empty config. -/
theorem C6_empty_model_list_witness :
    (validate_config emptyConfig).valid = false ∧
    ∃ e ∈ (validate_config emptyConfig).errors,
      containsText e "At least one model" = true :=
  C6_empty_model_list emptyConfig rfl

/-- Claim C7: the error sequence is the global empty-list error (at its
fixed position before all per-model errors) followed by the per-model
findings in `model_list` order, and the warning sequence is exactly the
global recommended-model warning, evaluated once. -/
theorem C7_findings_order (config : Config) :
    (validate_config config).errors =
      (if config.model_list.isEmpty then ["At least one model must be configured"]
        else []) ++ config.model_list.flatMap specModelFindings ∧
    (validate_config config).warnings =
      (if (config.model_list.map (fun m => m.model_name)).contains "llama-fast"
        then [] else [recommendedWarning]) :=
  ⟨validate_config_errors config, validate_config_warnings config⟩

/-- Claim C8: exactly one warning, mentioning the recommended model name,
is emitted iff no entry is named `llama-fast`; zero warnings otherwise; and
`valid` is determined by the errors alone. -/
theorem C8_recommended_warning (config : Config) :
    ((¬ ∃ m ∈ config.model_list, m.model_name = "llama-fast") →
      (validate_config config).warnings = [recommendedWarning] ∧
      containsText recommendedWarning "llama-fast" = true) ∧
    ((∃ m ∈ config.model_list, m.model_name = "llama-fast") →
      (validate_config config).warnings = []) ∧
    (validate_config config).valid = (validate_config config).errors.isEmpty := by
  refine ⟨?_, ?_, rfl⟩
  · intro h
    have hc : (config.model_list.map (fun m => m.model_name)).contains "llama-fast"
        = false := by
      rw [← Bool.not_eq_true, contains_llama_iff]
      exact h
    rw [validate_config_warnings, hc]
    exact ⟨by simp, by decide⟩
  · intro h
    rw [validate_config_warnings, (contains_llama_iff config).mpr h]
    simp

/-- Claim C8 witness: one warning for the non-default model, zero warnings
for the recommended one. -/
theorem C8_recommended_warning_witness :
    ((validate_config oneModelConfig).warnings = [recommendedWarning] ∧
      containsText recommendedWarning "llama-fast" = true) ∧
    (validate_config llamaFastConfig).warnings = [] :=
  ⟨(C8_recommended_warning oneModelConfig).1 (by decide),
   (C8_recommended_warning llamaFastConfig).2.1 (by decide)⟩

/-! ## Claims about the config store -/

theorem yamlToModelConfig_roundtrip (m : ModelConfig) :
    yamlToModelConfig (modelConfigToYaml m) = .ok m := rfl

theorem yamlListToModels_map (l : List ModelConfig) :
    yamlListToModels (l.map modelConfigToYaml) = .ok l := by
  induction l with
  | nil => rfl
  | cons m ms ih =>
    simp only [List.map_cons, yamlListToModels, yamlToModelConfig_roundtrip, ih]
    rfl

/-- Claim C5 counterexample: a stored document with a top-level key outside
the known schema loads successfully, but saving the loaded config drops the
unknown key, so the load-then-save round trip does not preserve unknown
fields. -/
theorem C5_counterexample :
    read_config cexDoc = .ok emptyConfig ∧
    (match write_config emptyConfig with
      | .map kvs => lookupKey kvs "custom_section"
      | _ => none) = none ∧
    write_config emptyConfig ≠ cexDoc := by
  refine ⟨rfl, rfl, ?_⟩
  intro h
  have h1 : (4 : Nat) = 2 :=
    congrArg (fun y => match y with | Yaml.map kvs => kvs.length | _ => 0) h
  exact absurd h1 (by decide)

/-- Claim C5 as amended: saving any config with `write_config` and loading
it back with `read_config` reproduces it exactly — `model_list` and the
three named opaque settings sections included.  (Unknown fields outside the
known schema are dropped by a load, not preserved: `C5_counterexample`.) -/
theorem C5_save_load_round_trip (c : Config) :
    read_config (write_config c) = .ok c := by
  have h1 : read_config (write_config c) =
      (yamlListToModels (c.model_list.map modelConfigToYaml)).map (fun ms =>
        { model_list := ms, litellm_settings := c.litellm_settings,
          router_settings := c.router_settings,
          general_settings := c.general_settings }) := rfl
  rw [h1, yamlListToModels_map]
  rfl

/-! ## Lemmas about newline splitting, for the tail reader -/

theorem splitNL_ne_nil (c : List Nat) : splitNL c ≠ [] := by
  induction c with
  | nil => simp [splitNL]
  | cons b rest ih =>
    simp only [splitNL]
    split
    · simp
    · rcases h : splitNL rest with _ | ⟨l, ls⟩
      · simp
      · simp [h]

theorem splitNL_cons_nl (rest : List Nat) :
    splitNL (10 :: rest) = [] :: splitNL rest := by
  simp [splitNL]

theorem splitNL_cons_of_ne {b : Nat} (hb : ¬ b = 10) (rest : List Nat)
    {l : List Nat} {ls : List (List Nat)} (h : splitNL rest = l :: ls) :
    splitNL (b :: rest) = (b :: l) :: ls := by
  simp [splitNL, hb, h]

theorem getLastD_irrel {α : Type} (x : α) (l : List α) (d1 d2 : α) :
    (x :: l).getLastD d1 = (x :: l).getLastD d2 := by
  rw [List.getLastD_cons, List.getLastD_cons]

theorem splitNL_append (a : List Nat) :
    ∀ {b : List Nat} {q : List Nat} {t : List (List Nat)}, splitNL b = q :: t →
    splitNL (a ++ b) =
      (splitNL a).dropLast ++ ((splitNL a).getLastD [] ++ q) :: t := by
  induction a with
  | nil =>
    intro b q t hb
    rw [List.nil_append, hb]
    rfl
  | cons x a ih =>
    intro b q t hb
    have hab := ih hb
    rcases hsa : splitNL a with _ | ⟨p, ps⟩
    · exact absurd hsa (splitNL_ne_nil a)
    rw [hsa] at hab
    by_cases hx : x = 10
    · subst hx
      rw [List.cons_append, splitNL_cons_nl, hab, splitNL_cons_nl, hsa]
      conv_rhs => rw [List.dropLast_cons₂, List.getLastD_cons, List.cons_append]
    · rcases ps with _ | ⟨p2, ps2⟩
      · rw [List.dropLast_single, List.getLastD_cons, List.getLastD_nil,
          List.nil_append] at hab
        rw [List.cons_append, splitNL_cons_of_ne hx _ hab,
          splitNL_cons_of_ne hx _ hsa]
        conv_rhs => rw [List.dropLast_single, List.getLastD_cons,
          List.getLastD_nil, List.nil_append]
        rw [List.cons_append]
      · rw [List.dropLast_cons₂, List.getLastD_cons, List.cons_append] at hab
        rw [List.cons_append, splitNL_cons_of_ne hx _ hab,
          splitNL_cons_of_ne hx _ hsa]
        conv_rhs => rw [List.dropLast_cons₂, List.getLastD_cons,
          List.cons_append]
        rw [getLastD_irrel p2 ps2 p (x :: p)]

theorem rustLines_drop_one_suffix (a b : List Nat) :
    (rustLines b).drop 1 <:+ rustLines (a ++ b) := by
  rcases hb : splitNL b with _ | ⟨q, t⟩
  · exact absurd hb (splitNL_ne_nil b)
  rcases t with _ | ⟨t1, ts⟩
  · have h1 : (rustLines b).drop 1 = [] := by
      unfold rustLines
      rw [hb]
      by_cases hq : q = [] <;> simp [hq]
    rw [h1]
    exact List.nil_suffix
  · have hab := splitNL_append a hb
    obtain ⟨v, hv⟩ : ∃ v, (t1 :: ts).getLast? = some v := by
      cases hgl : (t1 :: ts).getLast? with
      | none =>
        rw [List.getLast?_eq_none_iff] at hgl
        exact absurd hgl (by simp)
      | some v => exact ⟨v, rfl⟩
    have h1 : rustLines b =
        stripCR q :: ((t1 :: ts).dropLast.map stripCR ++
          (if v = [] then [] else [v])) := by
      unfold rustLines
      rw [hb, List.dropLast_cons₂, List.getLastD_eq_getLast?,
        List.getLast?_cons_cons, hv]
      simp
    have h2 : rustLines (a ++ b) =
        ((splitNL a).dropLast.map stripCR ++
            [stripCR ((splitNL a).getLastD [] ++ q)]) ++
          ((t1 :: ts).dropLast.map stripCR ++
            (if v = [] then [] else [v])) := by
      unfold rustLines
      rw [hab]
      rw [List.dropLast_append_cons, List.dropLast_cons₂]
      simp only [List.getLastD_eq_getLast?, List.getLast?_append,
        List.getLast?_cons_cons, hv, Option.or_some, Option.getD_some]
      simp [List.map_append]
    rw [h1, h2]
    exact ⟨_, rfl⟩

theorem lastN_suffix {α : Type} {l1 l2 : List α} (h : l1 <:+ l2) {n : Nat}
    (hn : n ≤ l1.length) : lastN n l2 = lastN n l1 := by
  obtain ⟨s, rfl⟩ := h
  unfold lastN
  rw [List.length_append]
  rw [show s.length + l1.length - n = s.length + (l1.length - n) by omega]
  rw [List.drop_append]

theorem lastN_of_ge {α : Type} {l : List α} {n : Nat} (hn : l.length ≤ n) :
    lastN n l = l := by
  unfold lastN
  rw [show l.length - n = 0 by omega]
  rfl

/-- Claim C2 as amended: the tail read equals the last `maxLines` lines of a
whole-file reference read for every file below 64 KiB (hence, when the file
has fewer than `maxLines` lines, all lines in original order, never an
error), and for every file of at least 64 KiB whenever the 64 KiB window
splits into at least `maxLines + 1` line segments — that is, whenever the
last `maxLines` lines start strictly after the seek position.  (At the
boundary where the window's first line starts exactly at the seek position
the code discards it as a presumed fragment: `C2_tail_counterexample`.) -/
theorem C2_tail_refinement (content : List Nat) (lines : Nat) :
    (content.length < 65536 →
      read_log_tail_content content lines = referenceTail content lines) ∧
    (65536 ≤ content.length →
      lines + 1 ≤ (rustLines (tailWindow content)).length →
      read_log_tail_content content lines = referenceTail content lines) ∧
    (content.length < 65536 → (rustLines content).length ≤ lines →
      read_log_tail_content content lines = rustLines content) := by
  refine ⟨?_, ?_, ?_⟩
  · intro h
    unfold read_log_tail_content referenceTail
    rw [if_pos h]
  · intro h hl
    unfold read_log_tail_content referenceTail
    rw [if_neg (by omega)]
    by_cases hz : content.length - 65536 > 0
    · have hne : rustLines (tailWindow content) ≠ [] := by
        intro hnil
        rw [hnil] at hl
        simp at hl
      unfold tailWindowLines
      rw [if_pos ⟨hz, hne⟩]
      have hsplit : content.take (content.length - 65536) ++ tailWindow content
          = content := List.take_append_drop _ _
      have hsuf : (rustLines (tailWindow content)).drop 1 <:+ rustLines content := by
        have hs := rustLines_drop_one_suffix
          (content.take (content.length - 65536)) (tailWindow content)
        rwa [hsplit] at hs
      have hlen : lines ≤ ((rustLines (tailWindow content)).drop 1).length := by
        rw [List.length_drop]
        omega
      exact (lastN_suffix hsuf hlen).symm
    · have hw : tailWindow content = content := by
        unfold tailWindow
        rw [show content.length - 65536 = 0 by omega]
        rfl
      unfold tailWindowLines
      rw [if_neg (fun hc => hz hc.1), hw]
  · intro h hl
    unfold read_log_tail_content
    rw [if_pos h]
    exact lastN_of_ge hl

/-- Claim C2 witness: a small file, tailed exactly as the reference read. -/
theorem C2_tail_refinement_witness :
    read_log_tail_content (strBytes "alpha\nbeta\ngamma") 2 =
      referenceTail (strBytes "alpha\nbeta\ngamma") 2 :=
  (C2_tail_refinement (strBytes "alpha\nbeta\ngamma") 2).1 (by decide)

/-! ## Computation of the tail reader on the 200 KiB counterexample file -/

theorem splitNL_a_nl (y : List Nat) :
    splitNL (97 :: 10 :: y) = [97] :: splitNL y :=
  splitNL_cons_of_ne (by decide) _ (splitNL_cons_nl y)

theorem splitNL_replicate97 (n : Nat) :
    splitNL (List.replicate n 97) = [List.replicate n 97] := by
  induction n with
  | zero => rfl
  | succ n ih =>
    rw [List.replicate_succ]
    rw [splitNL_cons_of_ne (by decide) _ ih]

theorem stripCR_replicate97 (n : Nat) :
    stripCR (List.replicate n 97) = List.replicate n 97 := by
  unfold stripCR
  rw [List.getLast?_replicate]
  rcases n with _ | m
  · simp
  · simp

theorem splitNL_cexWindow :
    splitNL cexWindow = List.replicate 9 [97] ++ [List.replicate 65518 97] := by
  show splitNL (97 :: 10 :: 97 :: 10 :: 97 :: 10 :: 97 :: 10 :: 97 :: 10 ::
    97 :: 10 :: 97 :: 10 :: 97 :: 10 :: 97 :: 10 :: List.replicate 65518 97) = _
  rw [splitNL_a_nl, splitNL_a_nl, splitNL_a_nl, splitNL_a_nl, splitNL_a_nl,
    splitNL_a_nl, splitNL_a_nl, splitNL_a_nl, splitNL_a_nl,
    splitNL_replicate97]
  rfl

theorem splitNL_cexContent :
    splitNL cexContent = (List.replicate 139263 97 :: List.replicate 9 [97])
      ++ [List.replicate 65518 97] := by
  have h1 : splitNL (10 :: cexWindow) = [] :: splitNL cexWindow :=
    splitNL_cons_nl cexWindow
  have h2 := splitNL_append (List.replicate 139263 97) h1
  rw [splitNL_replicate97, splitNL_cexWindow] at h2
  simp only [List.dropLast_single, List.getLastD_cons, List.getLastD_nil,
    List.nil_append, List.append_nil] at h2
  have hassoc : cexContent = List.replicate 139263 97 ++ (10 :: cexWindow) := by
    unfold cexContent
    rw [List.append_assoc]
    rfl
  rw [hassoc, h2]
  rfl

theorem rustLines_concat_of_ne (L : List (List Nat)) (v : List Nat)
    (hv : ¬ v = []) (c : List Nat) (h : splitNL c = L ++ [v]) :
    rustLines c = L.map stripCR ++ [v] := by
  unfold rustLines
  rw [h, List.dropLast_concat, List.getLastD_eq_getLast?, List.getLast?_concat,
    Option.getD_some, if_neg hv]

theorem big_replicate_ne_nil : ¬ List.replicate 65518 97 = ([] : List Nat) := by
  rw [List.replicate_eq_nil_iff]
  omega

theorem rustLines_cexWindow :
    rustLines cexWindow = List.replicate 9 [97] ++ [List.replicate 65518 97] := by
  rw [rustLines_concat_of_ne (List.replicate 9 [97]) (List.replicate 65518 97)
    big_replicate_ne_nil cexWindow splitNL_cexWindow]
  rw [List.map_replicate]
  rw [show stripCR ([97] : List Nat) = [97] from by decide]

theorem rustLines_cexContent :
    rustLines cexContent = List.replicate 139263 97 ::
      (List.replicate 9 [97] ++ [List.replicate 65518 97]) := by
  rw [rustLines_concat_of_ne
    (List.replicate 139263 97 :: List.replicate 9 [97])
    (List.replicate 65518 97) big_replicate_ne_nil cexContent splitNL_cexContent]
  rw [List.map_cons, List.map_replicate, stripCR_replicate97]
  rw [show stripCR ([97] : List Nat) = [97] from by decide]
  rfl

theorem cexContent_length : cexContent.length = 204800 := by
  show ((List.replicate 139263 97 ++ [10]) ++
    ([97, 10, 97, 10, 97, 10, 97, 10, 97, 10, 97, 10, 97, 10, 97, 10, 97, 10] ++
      List.replicate 65518 97)).length = 204800
  rw [List.length_append, List.length_append, List.length_append,
    List.length_replicate, List.length_replicate]
  rfl

theorem tailWindow_cexContent : tailWindow cexContent = cexWindow := by
  unfold tailWindow
  rw [cexContent_length]
  rw [show (204800 - 65536 : Nat) = 139264 from rfl]
  unfold cexContent
  refine List.drop_left' ?_
  rw [List.length_append, List.length_replicate]
  rfl

theorem referenceTail_cex :
    referenceTail cexContent 10 =
      List.replicate 9 [97] ++ [List.replicate 65518 97] := by
  unfold referenceTail lastN
  rw [rustLines_cexContent]
  have hlen : (List.replicate 139263 97 ::
      (List.replicate 9 [97] ++ [List.replicate 65518 97])).length = 11 := by
    rw [List.length_cons, List.length_append, List.length_replicate]
    rfl
  rw [hlen]
  rw [show (11 - 10 : Nat) = 1 from rfl]
  rfl

/-- Claim C2 counterexample: a 200 KiB file whose last 64 KiB window holds
exactly the last ten complete lines, the first of them starting exactly at
the seek position.  Those ten lines all lie within the final 64 KiB — the
window's lines are exactly the file's last ten lines — yet the tail read
with `maxLines = 10` discards the window's first line as a presumed
fragment and returns only nine lines, so it differs from the last ten lines
of the whole-file reference read. -/
theorem C2_tail_counterexample :
    cexContent.length = 204800 ∧
    (rustLines (tailWindow cexContent)).length = 10 ∧
    referenceTail cexContent 10 <:+ rustLines (tailWindow cexContent) ∧
    (read_log_tail_content cexContent 10).length = 9 ∧
    (referenceTail cexContent 10).length = 10 ∧
    read_log_tail_content cexContent 10 ≠ referenceTail cexContent 10 := by
  have hw : rustLines (tailWindow cexContent) =
      List.replicate 9 [97] ++ [List.replicate 65518 97] := by
    rw [tailWindow_cexContent, rustLines_cexWindow]
  have hw10 : ((List.replicate 9 [97] ++ [List.replicate 65518 97]) :
      List (List Nat)).length = 10 := by
    rw [List.length_append, List.length_replicate]
    rfl
  have hwne : rustLines (tailWindow cexContent) ≠ [] := by
    rw [hw]
    intro hc
    rw [hc] at hw10
    exact absurd hw10 (by decide)
  have hreflen : (referenceTail cexContent 10).length = 10 := by
    rw [referenceTail_cex]
    exact hw10
  have hcodelen : (read_log_tail_content cexContent 10).length = 9 := by
    unfold read_log_tail_content
    rw [if_neg (by rw [cexContent_length]; omega)]
    unfold tailWindowLines
    rw [if_pos ⟨by rw [cexContent_length]; omega, hwne⟩]
    unfold lastN
    rw [hw]
    simp only [List.length_drop]
    rw [hw10]
  refine ⟨cexContent_length, by rw [hw]; exact hw10, ?_, hcodelen, hreflen, ?_⟩
  · rw [referenceTail_cex, hw]
  · intro h
    rw [h, hreflen] at hcodelen
    exact absurd hcodelen (by decide)

end AICC
